import Mathlib

/-!
Shallow embedding of the autograd engine of this repository.

The engine (src/src/operations.rs, src/src/nn.rs) works over a `Tensor`
carrying dense 2-D data, a declared size and a shared mutable gradient node
(`Rc<RefCell<Gradient>>`).  We model the shared mutable nodes as an arena
(`Heap`, a list of `Gradient` records) addressed by stable indices; a `Tensor`
holds the index of its node.  Every operation that wraps a fresh
`Gradient` in an `Rc` is modelled as an allocation appending to the heap, in
the evaluation order of the source.  `f64` values are idealised as rationals
(all claim scenarios use values that are exact in `f64`).  Rust panics
(failed `assert!`, `expect`, `panic!`, `unwrap`) are modelled by `Option`:
`none` is an abort.  Raw `Vec` indexing inside loops that the source only
performs in-bounds is modelled by a total `getD` access with default `0`.

The repository snapshot contains two historical variants: the file
src/src/tensor.rs holds an older design (per-node scalar gradient,
`grad_fn` closures, a deep-copying `Clone`), embedded below in namespace `V0`,
while src/src/operations.rs, src/src/nn.rs and the test suite use the
gradient-node variant.  The tensor module of the gradient-node variant is not
under src/; its constructors and `Clone` are pinned by the field accesses in
operations.rs, by the test suite, and by the spec, and definitions modelled
that way carry a doc comment saying so.

The `backward` embedding additionally returns a ghost trace of events
(`enter` when the traversal starts processing a node, `contrib` when a
gradient contribution is added into a node) recording the operation order of
the source, used for the temporal ordering claim.
-/

namespace Autograd

/-- Row-major matrix data, the `Vec<Vec<f64>>` of the source with `f64`
idealised as `ℚ`. -/
abbrev Mat := List (List ℚ)

/-- Total cell access `data[i][j]`, default `0` out of bounds (the source
indexes raw `Vec`s; all claim scenarios stay in bounds). -/
def Mat.get (d : Mat) (i j : Nat) : ℚ := (d.getD i []).getD j 0

/-- Nested loop `for i in 0..m { for j in 0..n { data[i][j] = f(i, j) } }`. -/
def buildMat (m n : Nat) (f : Nat → Nat → ℚ) : Mat :=
  (List.range m).map (fun i => (List.range n).map (f i))

/-- Size derived from nested data, as `Tensor::size()` of tensor.rs computes
it: `(0,0)` when the data or its first row is empty. -/
def matSize (d : Mat) : Nat × Nat :=
  match d with
  | [] => (0, 0)
  | row :: _ => if row.isEmpty then (0, 0) else (d.length, row.length)

/-- Modelled from the spec: the gradient-node variant `Tensor` struct (its
module is missing from src/).  Field uses in operations.rs pin the fields:
`data: Vec<Vec<f64>>`, `size: (usize, usize)`, and a shared gradient node;
the `name` field is print-only and omitted.  `node` is the arena index of the
`Rc<RefCell<Gradient>>`; cloning a tensor shares the node (spec section 3,
required by the stored-parent semantics of operations.rs and by
gradient_tests.rs), so `Tensor` values are plain data and cloning is the
identity. -/
structure Tensor where
  data : Mat
  size : Nat × Nat
  node : Nat
deriving Repr, DecidableEq

instance : Inhabited Tensor := ⟨⟨[], (0, 0), 0⟩⟩

/-- The operation tag stored in a gradient node, `GradientOperation` of
operations.rs.  The source variant `None` is called `noneOp` here to avoid
clashing with `Option.none`. -/
inductive GradientOperation where
  | noneOp
  | neg (a : Tensor)
  | relu (a : Tensor)
  | pow (a : Tensor) (e : Int)
  | mean (a : Tensor)
  | add (a b : Tensor)
  | sub (a b : Tensor)
  | mul (a b : Tensor)
deriving Repr, DecidableEq

/-- The shared mutable record behind a tensor, `Gradient` of operations.rs:
operation tag, cached forward value `last`, accumulated gradient `value`. -/
structure Gradient where
  operation : GradientOperation
  last : Option Tensor
  value : Option Tensor
deriving Repr, DecidableEq

/-- `Gradient::default()`: no operation, no cached value, no gradient. -/
def Gradient.default : Gradient :=
  ⟨GradientOperation.noneOp, Option.none, Option.none⟩

/-- The arena of gradient nodes: each `Rc::new(RefCell::new(gradient))` of the
source is an append to this list. -/
abbrev Heap := List Gradient

/-- Dereference a node index. -/
def Heap.lookup (h : Heap) (i : Nat) : Gradient := h.getD i Gradient.default

/-- Allocate a fresh node (`Gradient::wrap`), returning its index. -/
def Heap.alloc (h : Heap) (g : Gradient) : Nat × Heap := (h.length, h ++ [g])

/-- Overwrite a node in place (a `borrow_mut` field assignment). -/
def Heap.setNode (h : Heap) (i : Nat) (g : Gradient) : Heap := h.set i g

/-- Modelled from the spec: `Tensor::from_vector` of the gradient-node variant
(missing from src/).  tensor_tests.rs pins that it sets `size` from the nested
data; the gradient node starts as `Gradient::default()` (it must leave
`value`/`last` unset for `with_grad`, operations.rs lines 88-99, to take its
enabling branch). -/
def fromVector (d : Mat) (h : Heap) : Tensor × Heap :=
  let (i, h1) := h.alloc Gradient.default
  (⟨d, matSize d, i⟩, h1)

/-- Modelled from the spec: `Tensor::fill(m, n, value)` of the gradient-node
variant (missing from src/), pinned by tensor_tests.rs `fill_sets_size`. -/
def fill (m n : Nat) (v : ℚ) (h : Heap) : Tensor × Heap :=
  let (i, h1) := h.alloc Gradient.default
  (⟨List.replicate m (List.replicate n v), (m, n), i⟩, h1)

/-- `Tensor::zeros(m, n) = fill(m, n, 0.0)`. -/
def zeros (m n : Nat) (h : Heap) : Tensor × Heap := fill m n 0 h

/-- `Tensor::ones(m, n) = fill(m, n, 1.0)`. -/
def ones (m n : Nat) (h : Heap) : Tensor × Heap := fill m n 1 h

/-- `Tensor::singleton(value) = fill(1, 1, value)`. -/
def singleton (v : ℚ) (h : Heap) : Tensor × Heap := fill 1 1 v h

/-- `Tensor::item()`: the sole cell of a `1x1` tensor, a panic (`none`)
otherwise (tensor.rs lines 282-287). -/
def item (t : Tensor) : Option ℚ :=
  if t.size = (1, 1) then Option.some (Mat.get t.data 0 0) else Option.none

/-- Modelled from the spec: `Tensor::num_elements`, missing from src/ and used
by `mean` and its backward arm; the spec fixes it as the element count
`m * n`. -/
def numElements (t : Tensor) : Nat := t.size.1 * t.size.2

/-- `Tensor::transpose` (tensor.rs lines 333-345): fresh tensor, gradient not
tracked. -/
def transposeT (t : Tensor) (h : Heap) : Tensor × Heap :=
  let (m, n) := t.size
  fromVector (buildMat n m (fun i j => Mat.get t.data j i)) h

/-- `Tensor::apply` (tensor.rs lines 347-359): elementwise rebuild from a
per-cell function, gradient not tracked.  The gradient-node variant takes a
capturing closure (the backward arms pass closures over `grad`). -/
def applyT (t : Tensor) (f : Nat → Nat → Tensor → ℚ) (h : Heap) : Tensor × Heap :=
  let (m, n) := t.size
  fromVector (buildMat m n (fun i j => f i j t)) h

/-- Unary negation operation (operations.rs lines 304-328).  Allocation order
follows the struct literal: `last`, then `value`, then the wrapped node. -/
def negT (t : Tensor) (h : Heap) : Tensor × Heap :=
  let (m, n) := t.size
  let d := buildMat m n (fun i j => -(Mat.get t.data i j))
  let (lastT, h1) := fromVector d h
  let (valT, h2) := fill m n 0 h1
  let (i, h3) := h2.alloc ⟨GradientOperation.neg t, Option.some lastT, Option.some valT⟩
  (⟨d, (m, n), i⟩, h3)

/-- Gradient-tracking addition (operations.rs lines 358-383): panics unless
the sizes agree; allocation order `last`, `value`, node. -/
def addT (a b : Tensor) (h : Heap) : Option (Tensor × Heap) :=
  if a.size = b.size then
    let (m, n) := a.size
    let d := buildMat m n (fun i j => Mat.get a.data i j + Mat.get b.data i j)
    let (lastT, h1) := fromVector d h
    let (valT, h2) := fill m n 0 h1
    let (i, h3) := h2.alloc ⟨GradientOperation.add a b, Option.some lastT, Option.some valT⟩
    Option.some (⟨d, (m, n), i⟩, h3)
  else Option.none

/-- Gradient-tracking subtraction (operations.rs lines 393-421): panics unless
the sizes agree (the source checks columns, then asserts full equality). -/
def subT (a b : Tensor) (h : Heap) : Option (Tensor × Heap) :=
  if a.size = b.size then
    let (m, n) := a.size
    let d := buildMat m n (fun i j => Mat.get a.data i j - Mat.get b.data i j)
    let (lastT, h1) := fromVector d h
    let (valT, h2) := fill m n 0 h1
    let (i, h3) := h2.alloc ⟨GradientOperation.sub a b, Option.some lastT, Option.some valT⟩
    Option.some (⟨d, (m, n), i⟩, h3)
  else Option.none

/-- Gradient-tracking matrix multiplication (operations.rs lines 431-464):
`[m x n_1] * [n_2 x p]` panics unless `n_1 = n_2`; triple-loop product. -/
def mulT (a b : Tensor) (h : Heap) : Option (Tensor × Heap) :=
  let (m, n1) := a.size
  let (n2, p) := b.size
  if n1 = n2 then
    let d := buildMat m p (fun i j =>
      (List.range n1).foldl (fun acc k => acc + Mat.get a.data i k * Mat.get b.data k j) 0)
    let (lastT, h1) := fromVector d h
    let (valT, h2) := fill m p 0 h1
    let (i, h3) := h2.alloc ⟨GradientOperation.mul a b, Option.some lastT, Option.some valT⟩
    Option.some (⟨d, (m, p), i⟩, h3)
  else Option.none

/-- `Differentiable::relu` (operations.rs lines 228-251): elementwise
`max(x, 0)` with the branch written as the source writes it (`x >= 0.0`
keeps `x`). -/
def reluT (t : Tensor) (h : Heap) : Tensor × Heap :=
  let (m, n) := t.size
  let d := buildMat m n (fun i j =>
    let x := Mat.get t.data i j
    if 0 ≤ x then x else 0)
  let (lastT, h1) := fromVector d h
  let (valT, h2) := fill m n 0 h1
  let (i, h3) := h2.alloc ⟨GradientOperation.relu t, Option.some lastT, Option.some valT⟩
  (⟨d, (m, n), i⟩, h3)

/-- `Differentiable::pow` (operations.rs lines 272-292): elementwise integer
power (`powi`; `zpow` on `ℚ` agrees except at a zero base with a negative
exponent, which no claim exercises). -/
def powT (t : Tensor) (e : Int) (h : Heap) : Tensor × Heap :=
  let (m, n) := t.size
  let d := buildMat m n (fun i j => Mat.get t.data i j ^ e)
  let (lastT, h1) := fromVector d h
  let (valT, h2) := fill m n 0 h1
  let (i, h3) := h2.alloc ⟨GradientOperation.pow t e, Option.some lastT, Option.some valT⟩
  (⟨d, (m, n), i⟩, h3)

/-- `Differentiable::mean` (operations.rs lines 253-270): sums the cells
addressed by the size field, stores the single-cell data, but declares
`size: (m, n)` of the input, exactly as the source does. -/
def meanT (t : Tensor) (h : Heap) : Tensor × Heap :=
  let (m, n) := t.size
  let s := (List.range m).foldl (fun acc i =>
    (List.range n).foldl (fun acc2 j => acc2 + Mat.get t.data i j) acc) 0
  let d : Mat := [[s / (numElements t : ℚ)]]
  let (lastT, h1) := fromVector d h
  let (valT, h2) := fill m n 0 h1
  let (i, h3) := h2.alloc ⟨GradientOperation.mean t, Option.some lastT, Option.some valT⟩
  (⟨d, (m, n), i⟩, h3)

/-- `Differentiable::with_grad` (operations.rs lines 88-99): if the gradient
is already enabled, print a diagnostic and change nothing; otherwise set the
accumulated gradient to zeros of the tensor size and cache `last` from the
data.  Returns `self.clone()`, the same graph vertex. -/
def withGrad (t : Tensor) (h : Heap) : Tensor × Heap :=
  let g := h.lookup t.node
  match g.value with
  | Option.some _ => (t, h)
  | Option.none =>
    let (m, n) := t.size
    let (z, h1) := zeros m n h
    let (l, h2) := fromVector t.data h1
    (t, h2.setNode t.node { g with value := Option.some z, last := Option.some l })

/-- `Differentiable::grad` (operations.rs lines 100-107): the accumulated
gradient, a panic (`none`) when gradient tracking is not enabled. -/
def gradT (t : Tensor) (h : Heap) : Option Tensor :=
  (h.lookup t.node).value

/-- `Differentiable::set_grad` (operations.rs lines 114-117): overwrite the
accumulated gradient unconditionally. -/
def setGrad (t g : Tensor) (h : Heap) : Heap :=
  h.setNode t.node { h.lookup t.node with value := Option.some g }

/-- `Differentiable::reset_grad` (operations.rs lines 109-112): set the
gradient to zeros of the tensor size. -/
def resetGrad (t : Tensor) (h : Heap) : Heap :=
  let (m, n) := t.size
  let (z, h1) := zeros m n h
  setGrad t z h1

/-- `Differentiable::add_grad` (operations.rs lines 119-127): when the
gradient is enabled, accumulate through the gradient-tracking addition
(which allocates a node and panics on shape mismatch); when it is not
enabled, do nothing, silently. -/
def addGrad (t g : Tensor) (h : Heap) : Option Heap :=
  let gr := h.lookup t.node
  match gr.value with
  | Option.none => Option.some h
  | Option.some v => do
    let (s, h1) ← addT v g h
    Option.some (h1.setNode t.node { gr with value := Option.some s })

/-- `Differentiable::last` (operations.rs lines 129-135): the cached forward
value when present, otherwise `self.clone()` — the tensor itself, not a
panic. -/
def lastT (t : Tensor) (h : Heap) : Tensor :=
  ((h.lookup t.node).last).getD t

/-- Ghost trace events of a backward pass: `enter n` when `backward` starts
processing node `n`, `contrib n` when an `add_grad` contribution is summed
into node `n` by a backward arm. -/
inductive Event where
  | enter (node : Nat)
  | contrib (node : Nat)
deriving Repr, DecidableEq

/-- `Differentiable::backward` (operations.rs lines 137-226), fuel-indexed
(the source recursion terminates because the graph is a DAG; every claim uses
ample fuel).  It first reads `self.grad()` (a panic when not enabled) and the
debugging `println!` unwraps `gradient.last` (a panic when absent), then
dispatches on the operation tag, adds each parent partial with `add_grad`,
and recurses into the parents, depth-first, exactly in source order.  The
returned event list is a ghost trace of that order. -/
def backward : Nat → Tensor → Heap → Option (Heap × List Event)
  | 0, _, _ => Option.none
  | fuel + 1, t, h => do
    let grad ← gradT t h
    let g := h.lookup t.node
    let _ ← g.last
    match g.operation with
    | GradientOperation.noneOp => Option.some (h, [Event.enter t.node])
    | GradientOperation.neg a => do
      let (ng, h1) := negT grad h
      let h2 ← addGrad a ng h1
      let (h3, e3) ← backward fuel a h2
      Option.some (h3, Event.enter t.node :: Event.contrib a.node :: e3)
    | GradientOperation.add a b => do
      let h1 ← addGrad a grad h
      let h2 ← addGrad b grad h1
      let (h3, e3) ← backward fuel a h2
      let (h4, e4) ← backward fuel b h3
      Option.some (h4, Event.enter t.node :: Event.contrib a.node ::
        Event.contrib b.node :: (e3 ++ e4))
    | GradientOperation.sub a b => do
      let h1 ← addGrad a grad h
      let (ng, h2) := negT grad h1
      let h3 ← addGrad b ng h2
      let (h4, e4) ← backward fuel a h3
      let (h5, e5) ← backward fuel b h4
      Option.some (h5, Event.enter t.node :: Event.contrib a.node ::
        Event.contrib b.node :: (e4 ++ e5))
    | GradientOperation.mul a b => do
      let aLast := lastT a h
      let bLast := lastT b h
      let (bT, h1) := transposeT bLast h
      let (aPartial, h2) ← mulT grad bT h1
      let h3 ← addGrad a aPartial h2
      let (gm, h4) ← mulT grad aLast h3
      let (bPartial, h5) := transposeT gm h4
      let h6 ← addGrad b bPartial h5
      let (h7, e7) ← backward fuel a h6
      let (h8, e8) ← backward fuel b h7
      Option.some (h8, Event.enter t.node :: Event.contrib a.node ::
        Event.contrib b.node :: (e7 ++ e8))
    | GradientOperation.relu a => do
      let aLast := lastT a h
      let (p, h1) := applyT aLast (fun i j last =>
        if 0 ≤ Mat.get last.data i j then Mat.get grad.data i j else 0) h
      let h2 ← addGrad a p h1
      let (h3, e3) ← backward fuel a h2
      Option.some (h3, Event.enter t.node :: Event.contrib a.node :: e3)
    | GradientOperation.pow a e => do
      let aLast := lastT a h
      let (p, h1) := applyT aLast (fun i j last =>
        (e : ℚ) * Mat.get last.data i j ^ (e - 1)) h
      let h2 ← addGrad a p h1
      let (h3, e3) ← backward fuel a h2
      Option.some (h3, Event.enter t.node :: Event.contrib a.node :: e3)
    | GradientOperation.mean a => do
      let aLast := lastT a h
      let denominator : ℚ := (numElements aLast : ℚ)
      let (p, h1) := applyT aLast (fun i j last =>
        Mat.get last.data i j / denominator) h
      let h2 ← addGrad a p h1
      let (h3, e3) ← backward fuel a h2
      Option.some (h3, Event.enter t.node :: Event.contrib a.node :: e3)

/-- The `Linear` layer of src/src/nn.rs (lines 20-90): a declared size and the
two owned parameter tensors (their `Rc<RefCell<Tensor>>` wrappers only matter
for the optimizer, which no claim exercises). -/
structure Linear where
  size : Nat × Nat
  weights : Tensor
  bias : Tensor
deriving Repr, DecidableEq

/-- `Linear::new(size_in, size_out)` (nn.rs lines 42-51): gradient-enabled
`ones` weight `[size_in x size_out]` and bias `[1 x size_out]`. -/
def Linear.new (sizeIn sizeOut : Nat) (h : Heap) : Linear × Heap :=
  let (w0, h1) := ones sizeIn sizeOut h
  let (w, h2) := withGrad w0 h1
  let (b0, h3) := ones 1 sizeOut h2
  let (b, h4) := withGrad b0 h3
  (⟨(sizeIn, sizeOut), w, b⟩, h4)

/-- `Module::forward` for `Linear` (nn.rs lines 54-70): resets both parameter
gradients, then computes `(x * weights) + bias` through the gradient-tracking
operations (which panic on shape mismatch; there is no broadcasting). -/
def Linear.forward (l : Linear) (x : Tensor) (h : Heap) : Option (Tensor × Heap) := do
  let h1 := resetGrad l.weights h
  let h2 := resetGrad l.bias h1
  let (a, h3) ← mulT x l.weights h2
  let (b, h4) ← addT a l.bias h3
  Option.some (b, h4)

/-- `Module::reset_grad` for `Linear` (nn.rs lines 72-75): sets both parameter
gradients to `Tensor::singleton(0.0)`, a `1x1` tensor, whatever the parameter
shapes are. -/
def Linear.reset_grad (l : Linear) (h : Heap) : Heap :=
  let (z1, h1) := singleton 0 h
  let h2 := setGrad l.weights z1 h1
  let (z2, h3) := singleton 0 h2
  setGrad l.bias z2 h3

/-- The scenario of the spec and of gradient_tests.rs `small_computation_graph`,
built in test order: `a=1, b=2, e=a*b, c=10, d=e+c, f=-2, y=f*d`, all leaves
gradient-enabled; seed `y.grad = 1`, run `backward`, and report the forward
items of `e, d, y` followed by the gradient matrices of `a, b, c, f, d, e`. -/
def c1run : Option (ℚ × ℚ × ℚ × List Mat) := do
  let h0 : Heap := []
  let (a0, h1) := singleton 1 h0
  let (a, h2) := withGrad a0 h1
  let (b0, h3) := singleton 2 h2
  let (b, h4) := withGrad b0 h3
  let (e, h5) ← mulT a b h4
  let (c0, h6) := singleton 10 h5
  let (c, h7) := withGrad c0 h6
  let (d, h8) ← addT e c h7
  let (f0, h9) := singleton (-2) h8
  let (f, h10) := withGrad f0 h9
  let (y, h11) ← mulT f d h10
  let eVal ← item e
  let dVal ← item d
  let yVal ← item y
  let (one, h12) := singleton 1 h11
  let h13 := setGrad y one h12
  let (h14, _) ← backward 10 y h13
  let grads ← [a, b, c, f, d, e].mapM (fun t => (gradT t h14).map Tensor.data)
  Option.some (eVal, dVal, yVal, grads)

/-- Square matrix-multiply backward probe: `a.last = [[1,2],[3,4]]`,
`b = I` (both gradient-enabled `2x2`), `y = a*b`, seed
`dy = [[0,1],[0,0]]`, run backward, report the gradient data of `a` and of
`b`. -/
def c2run : Option (Mat × Mat) := do
  let (a0, h1) := fromVector [[1, 2], [3, 4]] ([] : Heap)
  let (a, h2) := withGrad a0 h1
  let (b0, h3) := fromVector [[1, 0], [0, 1]] h2
  let (b, h4) := withGrad b0 h3
  let (y, h5) ← mulT a b h4
  let (dy, h6) := fromVector [[0, 1], [0, 0]] h5
  let h7 := setGrad y dy h6
  let (h8, _) ← backward 5 y h7
  let ga ← gradT a h8
  let gb ← gradT b h8
  Option.some (ga.data, gb.data)

/-- Rectangular probe, forward part: `a : [1x2]`, `b : [2x3]`, `y = a*b`;
reports the forward product data (the setup succeeds). -/
def c2rectSetup : Option Mat := do
  let (a0, h1) := fromVector [[1, 2]] ([] : Heap)
  let (a, h2) := withGrad a0 h1
  let (b0, h3) := fromVector [[1, 2, 3], [4, 5, 6]] h2
  let (b, h4) := withGrad b0 h3
  let (y, _) ← mulT a b h4
  Option.some y.data

/-- Rectangular probe, backward part: same graph, seed `dy = [[1,1,1]]` and
run backward (the source then computes `grad * a.last`, a `[1x3] * [1x2]`
product, and panics on the dimension check). -/
def c2rect : Option (Heap × List Event) := do
  let (a0, h1) := fromVector [[1, 2]] ([] : Heap)
  let (a, h2) := withGrad a0 h1
  let (b0, h3) := fromVector [[1, 2, 3], [4, 5, 6]] h2
  let (b, h4) := withGrad b0 h3
  let (y, h5) ← mulT a b h4
  let (dy, h6) := fromVector [[1, 1, 1]] h5
  let h7 := setGrad y dy h6
  backward 5 y h7

/-- Pow backward probe: `a = 3` gradient-enabled, `y = a^2`, seed
`y.grad = 5`, run backward, report the gradient data of `a`. -/
def c3run : Option Mat := do
  let (a0, h1) := singleton 3 ([] : Heap)
  let (a, h2) := withGrad a0 h1
  let (y, h3) := powT a 2 h2
  let (g5, h4) := singleton 5 h3
  let h5 := setGrad y g5 h4
  let (h6, _) ← backward 5 y h5
  let ga ← gradT a h6
  Option.some ga.data

/-- Mean probe: `a = [[1,2],[3,4]]` gradient-enabled, `mn = mean(a)`; report
`mn`'s declared size, its data, its `item()`, and — after seeding
`mn.grad = 7` and running backward — the gradient data of `a`. -/
def c4run : Option ((Nat × Nat) × Mat × Option ℚ × Mat) := do
  let (a0, h1) := fromVector [[1, 2], [3, 4]] ([] : Heap)
  let (a, h2) := withGrad a0 h1
  let (mn, h3) := meanT a h2
  let (g7, h4) := singleton 7 h3
  let h5 := setGrad mn g7 h4
  let (h6, _) ← backward 5 mn h5
  let ga ← gradT a h6
  Option.some (mn.size, mn.data, item mn, ga.data)

/-- Diamond graph for the traversal-order claim: `p` gradient-enabled,
`x = -p`, `u = -x`, `v = -x` (so `x` feeds two consumers), `y = u + v`; seed
`y.grad = 1` and run backward, returning the final heap and the ghost event
trace. -/
def c5run : Option (Heap × List Event) := do
  let (p0, h1) := singleton 1 ([] : Heap)
  let (p, h2) := withGrad p0 h1
  let (x, h3) := negT p h2
  let (u, h4) := negT x h3
  let (v, h5) := negT x h4
  let (y, h6) ← addT u v h5
  let (one, h7) := singleton 1 h6
  let h8 := setGrad y one h7
  backward 10 y h8

/-- Same diamond run, reporting the participating node indices
`[p, x, u, v, y]`, the trace, and the final gradient data of the shared node
`x` and of its parent `p`. -/
def c5info : Option (List Nat × List Event × Mat × Mat) := do
  let (p0, h1) := singleton 1 ([] : Heap)
  let (p, h2) := withGrad p0 h1
  let (x, h3) := negT p h2
  let (u, h4) := negT x h3
  let (v, h5) := negT x h4
  let (y, h6) ← addT u v h5
  let (one, h7) := singleton 1 h6
  let h8 := setGrad y one h7
  let (h9, tr) ← backward 10 y h8
  let gx ← gradT x h9
  let gp ← gradT p h9
  Option.some ([p.node, x.node, u.node, v.node, y.node], tr, gx.data, gp.data)

/-- The ordering discipline the spec claims for one backward pass: for every
node carrying an operation, every gradient contribution summed into it
occurs in the trace strictly before the traversal starts processing (and so
propagates past) that node. -/
def contribsBeforeEnters (h : Heap) (tr : List Event) : Prop :=
  ∀ n < h.length, (Heap.lookup h n).operation ≠ GradientOperation.noneOp →
    ∀ i < tr.length, ∀ j < tr.length,
      tr.getD i (Event.enter 0) = Event.contrib n →
      tr.getD j (Event.enter 0) = Event.enter n → i < j

/-- Final heap of the diamond run. -/
def c5heap : Heap := (c5run.getD ([], [])).1

/-- Event trace of the diamond run. -/
def c5trace : List Event := (c5run.getD ([], [])).2

/-- Linear broadcast probe: `Linear(1, 1)` applied to a batch-2 input
`[[1],[2]]`. -/
def c6cx : Option (Tensor × Heap) :=
  let (l, h1) := Linear.new 1 1 ([] : Heap)
  let (x, h2) := fromVector [[1], [2]] h1
  Linear.forward l x h2

/-- Parametric batch-1 Linear pipeline: `Linear(row.length, sout)` built in a
fresh session, followed by a `1 x row.length` input tensor holding `row`. -/
def c6setup (row : List ℚ) (sout : Nat) : Linear × Tensor × Heap :=
  let (l, h1) := Linear.new row.length sout []
  let (x, h2) := fromVector [row] h1
  (l, x, h2)

/-- Shape invariant probe: `Linear(2, 2)` followed by the module-level
`reset_grad`; report the weight tensor's size and the size of its accumulated
gradient. -/
def c8run : (Nat × Nat) × Option (Nat × Nat) :=
  let (l, h1) := Linear.new 2 2 ([] : Heap)
  let h2 := l.reset_grad h1
  (l.weights.size, (gradT l.weights h2).map Tensor.size)

/-- Probe for `grad`/`last` on a tensor without gradient tracking:
`t = singleton 5`, never `with_grad`-ed. -/
def c7probe : Option Tensor × Tensor × Tensor :=
  let (t, h1) := singleton 5 ([] : Heap)
  (gradT t h1, lastT t h1, t)

/-- Index-based matrix product over raw data, for stating the spec-side
matmul-backward formula. -/
def matMulIdx (m n p : Nat) (a b : Mat) : Mat :=
  buildMat m p (fun i j =>
    (List.range n).foldl (fun acc k => acc + Mat.get a i k * Mat.get b k j) 0)

/-- Index-based transpose over raw data. -/
def transposeIdx (m n : Nat) (d : Mat) : Mat :=
  buildMat n m (fun i j => Mat.get d j i)

/-- Modelled from the spec: the contribution the spec says Mul backward adds
into `b`, namely `transpose(a.last) * dy`, for `a.last : [m x k]` and
`dy : [m x p]`. -/
def claimedMulPartialB (m k p : Nat) (aLast dy : Mat) : Mat :=
  matMulIdx k m p (transposeIdx m k aLast) dy

end Autograd

namespace V0

/-- The older tensor variant of src/src/tensor.rs: per-tensor shared metadata
with a cached matrix `last`, a scalar accumulated gradient `grad`, and a
`grad_fn` closure.  Only the pieces the clone-sharing claim needs are
embedded; `grad_fn` (invoked only by this variant's own `backward`) and the
print-only `name` are omitted. -/
structure TensorData where
  last : Autograd.Mat
  grad : ℚ
deriving Repr, DecidableEq

/-- `TensorData::default()` (tensor.rs lines 18-25): `last = [[0.0]]`,
`grad = 0.0`. -/
def TensorData.default : TensorData := ⟨[[0]], 0⟩

/-- The `Tensor` of tensor.rs (lines 28-31): owned dense data plus an
`Rc<RefCell<TensorData>>`, modelled as an index into the metadata arena. -/
structure Tensor where
  data : Autograd.Mat
  node : Nat
deriving Repr, DecidableEq

abbrev Heap := List TensorData

def Heap.lookup (h : Heap) (i : Nat) : TensorData := h.getD i TensorData.default

/-- `Tensor::from_vector` (tensor.rs lines 242-250): fresh metadata whose
`last` caches the data. -/
def fromVector (d : Autograd.Mat) (h : Heap) : Tensor × Heap :=
  (⟨d, h.length⟩, h ++ [⟨d, 0⟩])

/-- `Tensor::fill` (tensor.rs lines 264-273). -/
def fill (m n : Nat) (v : ℚ) (h : Heap) : Tensor × Heap :=
  fromVector (List.replicate m (List.replicate n v)) h

/-- `Tensor::singleton` (tensor.rs lines 260-262). -/
def singleton (v : ℚ) (h : Heap) : Tensor × Heap := fill 1 1 v h

/-- `Tensor::size()` (tensor.rs lines 322-331): computed from `self.data()`,
which returns the metadata cache `last`. -/
def sizeV0 (t : Tensor) (h : Heap) : Nat × Nat :=
  Autograd.matSize (Heap.lookup h t.node).last

/-- `Clone for Tensor` (tensor.rs lines 362-373): copies the cells and wraps
them through `from_vector`, which builds a fresh metadata record — the clone
does not share the original node. -/
def clone (t : Tensor) (h : Heap) : Tensor × Heap :=
  let (m, n) := sizeV0 t h
  fromVector (Autograd.buildMat m n (fun i j => Autograd.Mat.get t.data i j)) h

/-- `Tensor::set_grad` (tensor.rs lines 212-217): writes the scalar gradient
of this tensor's metadata. -/
def setGrad (t : Tensor) (g : ℚ) (h : Heap) : Heap :=
  h.set t.node { Heap.lookup h t.node with grad := g }

/-- `Tensor::grad` (tensor.rs lines 289-293): reads the scalar gradient. -/
def grad (t : Tensor) (h : Heap) : ℚ :=
  (Heap.lookup h t.node).grad

/-- Clone-sharing probe on the tensor.rs variant: `t = singleton 5`,
`c = t.clone()`, `c.set_grad(3.0)`; report `t.grad()`, `c.grad()`, and
whether the two tensors address the same metadata node. -/
def c9run : ℚ × ℚ × Bool :=
  let (t, h1) := singleton 5 ([] : Heap)
  let (c, h2) := clone t h1
  let h3 := setGrad c 3 h2
  (grad t h3, grad c h3, t.node == c.node)

end V0

namespace Autograd

/-- Claim C1: in the computation graph `a=1, b=2, c=10, f=-2` (all `1x1`
gradient-enabled leaves) with `e=a*b`, `d=e+c`, `y=f*d`, the forward values
are `e=2, d=12, y=-24`, and after seeding `y.grad=1` and running `backward`
the accumulated gradients are `a=-4, b=-2, c=-2, f=12, d=-2, e=-2`. -/
theorem C1_small_graph : c1run = Option.some (2, 12, -24,
    [[[-4]], [[-2]], [[-2]], [[12]], [[-2]], [[-2]]]) := by with_unfolding_all decide

/-- Claim C2 (evaluation at the failing input): backward through a Mul node
with `a.last = [[1,2],[3,4]]`, `b = I` and `dy = [[0,1],[0,0]]` adds
`dy * transpose(b.last) = [[0,1],[0,0]]` into `a` (matching the claim) but
adds `[[3,0],[4,0]]` — the transpose of `dy * a.last` — into `b`, which
differs from the claimed `transpose(a.last) * dy = [[0,1],[0,2]]`; and on a
rectangular product `[1x2]*[2x3]` whose forward succeeds, the backward pass
aborts on the inner-dimension check of `dy * a.last`. -/
theorem C2_mul_backward : c2run = Option.some ([[0, 1], [0, 0]], [[3, 0], [4, 0]])
    ∧ claimedMulPartialB 2 2 2 [[1, 2], [3, 4]] [[0, 1], [0, 0]] = [[0, 1], [0, 2]]
    ∧ ([[3, 0], [4, 0]] : Mat) ≠ [[0, 1], [0, 2]]
    ∧ c2rectSetup = Option.some [[9, 12, 15]]
    ∧ c2rect = Option.none := by with_unfolding_all decide

/-- Claim C3 (evaluation at the failing input): backward through `y = a^2`
with `a.last = 3` and incoming gradient `dy = 5` adds
`e * a.last^(e-1) = 6` into `a`, ignoring `dy`; the claimed contribution
`e * a.last^(e-1) * dy` would be `30`. -/
theorem C3_pow_backward : c3run = Option.some [[6]]
    ∧ ((2 : ℚ) * 3 ^ ((2 : ℤ) - 1)) * 5 = 30
    ∧ ([[6]] : Mat) ≠ [[30]] := by with_unfolding_all decide

/-- Claim C4 (evaluation at the failing input): for `a = [[1,2],[3,4]]`,
`mean(a)` carries the single cell `5/2` but declares size `(2,2)` (so
`item()` on it aborts instead of yielding the scalar), and backward with
incoming gradient `dy = 7` adds `a.last / 4 = [[1/4,1/2],[3/4,1]]` into `a`
rather than the claimed `dy / 4` broadcast `[[7/4,7/4],[7/4,7/4]]`. -/
theorem C4_mean : c4run = Option.some ((2, 2), [[5/2]], Option.none,
      [[1/4, 1/2], [3/4, 1]])
    ∧ ([[1/4, 1/2], [3/4, 1]] : Mat) ≠ [[7/4, 7/4], [7/4, 7/4]] := by with_unfolding_all decide

/-- Claim C5 counterexample: in the diamond graph `p -> x -> {u, v} -> y`
(where `x` feeds two consumers) the backward trace of the code enters and
propagates past the shared node `x` (trace index 5) before `v`'s
contribution into `x` is summed (trace index 9), so the claimed
summed-before-propagation ordering fails. -/
theorem C5_ordering_violated : ¬ contribsBeforeEnters c5heap c5trace :=
  fun hcl => absurd
    (hcl 5 (by with_unfolding_all decide) (by with_unfolding_all decide) 9 (by with_unfolding_all decide) 5 (by with_unfolding_all decide) (by with_unfolding_all decide) (by with_unfolding_all decide))
    (by with_unfolding_all decide)

/-- Claim C5 amended: the code's depth-first traversal adds the contributions
of one node's arm to both parents before recursing into them, but a node
feeding several consumers is re-entered once per incoming path with its
current partial sum: in the diamond run the trace enters `x` (node 5) after
the first contribution, then again after the second, and the parent `p`
(node 0) accumulates `1 + 2 = 3` (the partial-sum propagation plus the
total), not the calculus value `2`, while `x` itself ends with the correct
sum `-2`. -/
theorem C5_per_path_revisit : c5info = Option.some ([0, 5, 8, 11, 14],
    [Event.enter 14, Event.contrib 8, Event.contrib 11, Event.enter 8,
     Event.contrib 5, Event.enter 5, Event.contrib 0, Event.enter 0,
     Event.enter 11, Event.contrib 5, Event.enter 5, Event.contrib 0,
     Event.enter 0], [[-2]], [[3]]) := by with_unfolding_all decide

/-- Claim C6 counterexample: `Linear(1, 1)` applied to the batch-2 input
`[[1],[2]]` aborts (the bias addition asserts equal shapes; nothing is
broadcast), so forward returns no tensor at all. -/
theorem C6_no_broadcast : c6cx = Option.none := by with_unfolding_all decide

/-- Claim C7 counterexample: on `t = singleton 5` without gradient tracking,
`grad()` indeed aborts, but `last()` returns the tensor itself instead of
aborting. -/
theorem C7_last_returns_value : c7probe.1 = Option.none ∧ c7probe.2.1 = c7probe.2.2 := by
  decide

/-- Claim C7 amended: on a tensor whose node has no accumulated gradient,
`grad()` aborts with a diagnostic, while `last()` (when no cached forward
value is present) returns the tensor itself — a clone of `self` — rather
than aborting. -/
theorem C7_grad_aborts_last_falls_back (t : Tensor) (h : Heap)
    (hv : (Heap.lookup h t.node).value = Option.none)
    (hl : (Heap.lookup h t.node).last = Option.none) :
    gradT t h = Option.none ∧ lastT t h = t := by
  refine ⟨?_, ?_⟩
  · simp [gradT, hv]
  · simp [lastT, hl]

/-- Witness for the amended C7 theorem at `t = ⟨[[5]], (1,1), 0⟩` over a
one-node heap. -/
theorem C7_witness :
    (Heap.lookup [Gradient.default] ((⟨[[5]], (1, 1), 0⟩ : Tensor)).node).value = Option.none
    ∧ (Heap.lookup [Gradient.default] ((⟨[[5]], (1, 1), 0⟩ : Tensor)).node).last = Option.none
    ∧ (gradT ⟨[[5]], (1, 1), 0⟩ [Gradient.default] = Option.none
      ∧ lastT ⟨[[5]], (1, 1), 0⟩ [Gradient.default] = ⟨[[5]], (1, 1), 0⟩) :=
  ⟨rfl, rfl, C7_grad_aborts_last_falls_back _ _ rfl rfl⟩

/-- Claim C8 (evaluation at the failing input): after `Linear(2, 2)` and the
module-level `reset_grad`, the weight tensor has value shape `(2,2)` but its
accumulated gradient is the `1x1` `singleton(0.0)`. -/
theorem C8_linear_reset_grad : c8run = ((2, 2), Option.some (1, 1))
    ∧ ((2, 2) : Nat × Nat) ≠ (1, 1) := by with_unfolding_all decide

/-- Claim C9 (evaluation at the failing input): with the `Clone` impl of
src/src/tensor.rs, `c = t.clone()` followed by `c.set_grad(3.0)` leaves
`t.grad() = 0` while `c.grad() = 3`, and the two tensors hold distinct
metadata nodes — the clone is a fresh copy, not the same graph vertex. -/
theorem C9_clone_does_not_share : V0.c9run = (0, 3, false) ∧ (0 : ℚ) ≠ 3 := by with_unfolding_all decide

/-- Claim C10: `add_grad` on a tensor whose gradient tracking is not enabled
returns the heap unchanged — the gradient stays absent, and no panic or
diagnostic is produced. -/
theorem C10_add_grad_silent_noop (t g : Tensor) (h : Heap)
    (hv : (Heap.lookup h t.node).value = Option.none) :
    addGrad t g h = Option.some h := by
  simp [addGrad, hv]

/-- Witness for the C10 theorem on a one-node heap without gradient
tracking. -/
theorem C10_witness :
    (Heap.lookup [Gradient.default] ((⟨[[5]], (1, 1), 0⟩ : Tensor)).node).value = Option.none
    ∧ addGrad ⟨[[5]], (1, 1), 0⟩ ⟨[[1]], (1, 1), 0⟩ [Gradient.default]
      = Option.some [Gradient.default] :=
  ⟨rfl, C10_add_grad_silent_noop _ _ _ rfl⟩

lemma getD_lt_replicate {α : Type} (n : Nat) (a d : α) {i : Nat} (hi : i < n) :
    (List.replicate n a).getD i d = a := by
  rw [List.getD_eq_getElem _ _ (by simpa using hi)]
  simp

lemma getD_map_range {α : Type} (n : Nat) (f : Nat → α) (d : α) {i : Nat} (hi : i < n) :
    ((List.range n).map f).getD i d = f i := by
  rw [List.getD_eq_getElem _ _ (by simpa using hi)]
  simp

lemma foldl_range_add (n : Nat) (f : Nat → ℚ) (c : ℚ) :
    (List.range n).foldl (fun acc k => acc + f k) c = c + ∑ k in Finset.range n, f k := by
  induction n with
  | zero => simp
  | succ m ih =>
    rw [List.range_succ, List.foldl_append, ih, Finset.sum_range_succ]
    simp [add_assoc]

lemma sum_range_getD (row : List ℚ) :
    ∑ k in Finset.range row.length, row.getD k 0 = row.sum := by
  induction row with
  | nil => simp
  | cons a t ih =>
    rw [List.length_cons, Finset.sum_range_succ']
    simp only [List.getD_cons_succ, List.getD_cons_zero, ih, List.sum_cons]
    exact add_comm _ _

lemma map_range_const {α : Type} (n : Nat) (g : Nat → α) (c : α)
    (hg : ∀ j < n, g j = c) :
    (List.range n).map g = List.replicate n c := by
  rw [List.eq_replicate_iff]
  refine ⟨by simp, ?_⟩
  intro b hb
  simp only [List.mem_map, List.mem_range] at hb
  obtain ⟨j, hj, rfl⟩ := hb
  exact hg j hj

lemma mulfold_ones (row : List ℚ) (sout j : Nat) (hj : j < sout) :
    (List.range row.length).foldl (fun acc k => acc + Mat.get [row] 0 k *
      Mat.get (List.replicate row.length (List.replicate sout (1 : ℚ))) k j) 0
    = row.sum := by
  rw [foldl_range_add]
  rw [Finset.sum_congr rfl (fun k hk => ?_), sum_range_getD, zero_add]
  rw [Finset.mem_range] at hk
  show Mat.get [row] 0 k * Mat.get (List.replicate row.length (List.replicate sout (1 : ℚ))) k j
    = row.getD k 0
  unfold Mat.get
  rw [List.getD_cons_zero, getD_lt_replicate _ _ _ hk, getD_lt_replicate _ _ _ hj]
  exact mul_one _

lemma mulT_isSome_data (a b : Tensor) (h : Heap) (m n p : Nat)
    (ha : a.size = (m, n)) (hb : b.size = (n, p)) :
    ∃ h2, mulT a b h = Option.some
      (⟨buildMat m p (fun i j => (List.range n).foldl
          (fun acc k => acc + Mat.get a.data i k * Mat.get b.data k j) 0),
        (m, p), h.length + 2⟩, h2) := by
  apply Exists.intro
  unfold mulT
  rw [ha, hb]
  simp [fromVector, fill, Heap.alloc]
  rfl

lemma addT_isSome_data (a b : Tensor) (h : Heap) (m n : Nat)
    (ha : a.size = (m, n)) (hb : b.size = (m, n)) :
    ∃ h2, addT a b h = Option.some
      (⟨buildMat m n (fun i j => Mat.get a.data i j + Mat.get b.data i j),
        (m, n), h.length + 2⟩, h2) := by
  apply Exists.intro
  unfold addT
  rw [ha, hb]
  simp [fromVector, fill, Heap.alloc]
  rfl

lemma buildMat_one_row (sout : Nat) (f : Nat -> Nat -> Rat) (c : Rat)
    (hf : forall j, j < sout -> f 0 j = c) :
    buildMat 1 sout f = [List.replicate sout c] := by
  unfold buildMat
  rw [show List.range 1 = [0] from rfl, List.map_singleton]
  exact congrArg (fun r => [r]) (map_range_const sout (f 0) c hf)

lemma matGet_buildMat_one (sout : Nat) (f : Nat -> Nat -> Rat) {j : Nat} (hj : j < sout) :
    Mat.get (buildMat 1 sout f) 0 j = f 0 j := by
  unfold Mat.get buildMat
  rw [show List.range 1 = [0] from rfl, List.map_singleton, List.getD_cons_zero,
    getD_map_range _ _ _ hj]

lemma matGet_replicate_one (sout : Nat) {j : Nat} (hj : j < sout) :
    Mat.get (List.replicate 1 (List.replicate sout (1 : Rat))) 0 j = 1 := by
  unfold Mat.get
  rw [getD_lt_replicate 1 _ _ Nat.one_pos, getD_lt_replicate _ _ _ hj]

/-- Claim C6 amended: `Linear(size_in, size_out)` owns a gradient-enabled
`ones` weight tensor of shape `[size_in x size_out]` and a gradient-enabled
`ones` bias tensor of shape `[1 x size_out]`, and for every nonempty input
row (batch = 1, the only batch size the shape assertion of the bias addition
admits) forward returns `(input * weights) + bias`, here evaluated to the
row `[sum(input) + 1, ..., sum(input) + 1]` of length `size_out`; no
broadcasting happens (a batch of two aborts, see the counterexample). -/
theorem C6_linear_batch_one (row : List Rat) (sout : Nat) (hrow : row ≠ []) :
    (c6setup row sout).1.weights.size = (row.length, sout)
    ∧ (gradT (c6setup row sout).1.weights (c6setup row sout).2.2).isSome = true
    ∧ (c6setup row sout).1.bias.size = (1, sout)
    ∧ (gradT (c6setup row sout).1.bias (c6setup row sout).2.2).isSome = true
    ∧ (Linear.forward (c6setup row sout).1 (c6setup row sout).2.1
        (c6setup row sout).2.2).map (fun r => (r.1.data, r.1.size))
      = Option.some ([List.replicate sout (row.sum + 1)], (1, sout)) := by
  obtain ⟨a0, rs, rfl⟩ : ∃ a0 rs, row = a0 :: rs := by
    cases row with
    | nil => exact absurd rfl hrow
    | cons a0 rs => exact ⟨a0, rs, rfl⟩
  refine ⟨rfl, rfl, rfl, rfl, ?_⟩
  unfold Linear.forward
  dsimp only
  obtain ⟨hA, hmEq⟩ := mulT_isSome_data (c6setup (a0 :: rs) sout).2.1
    (c6setup (a0 :: rs) sout).1.weights
    (resetGrad (c6setup (a0 :: rs) sout).1.bias
      (resetGrad (c6setup (a0 :: rs) sout).1.weights (c6setup (a0 :: rs) sout).2.2))
    1 (a0 :: rs).length sout rfl rfl
  rw [hmEq]
  simp only [Option.bind_eq_bind, Option.some_bind]
  obtain ⟨hB, haEq⟩ := addT_isSome_data
    (⟨buildMat 1 sout (fun i j => (List.range (a0 :: rs).length).foldl
        (fun acc k => acc + Mat.get (c6setup (a0 :: rs) sout).2.1.data i k *
          Mat.get (c6setup (a0 :: rs) sout).1.weights.data k j) 0),
      (1, sout), (resetGrad (c6setup (a0 :: rs) sout).1.bias
        (resetGrad (c6setup (a0 :: rs) sout).1.weights
          (c6setup (a0 :: rs) sout).2.2)).length + 2⟩ : Tensor)
    (c6setup (a0 :: rs) sout).1.bias hA 1 sout rfl rfl
  rw [haEq]
  simp only [Option.bind_eq_bind, Option.some_bind, Option.map_some]
  refine congrArg Option.some (Prod.ext ?_ rfl)
  dsimp only
  apply buildMat_one_row
  intro j hj
  rw [matGet_buildMat_one sout _ hj]
  rw [show (c6setup (a0 :: rs) sout).2.1.data = [a0 :: rs] from rfl]
  rw [show (c6setup (a0 :: rs) sout).1.weights.data
      = List.replicate (a0 :: rs).length (List.replicate sout (1 : Rat)) from rfl]
  rw [show (c6setup (a0 :: rs) sout).1.bias.data
      = List.replicate 1 (List.replicate sout (1 : Rat)) from rfl]
  rw [mulfold_ones (a0 :: rs) sout j hj, matGet_replicate_one sout hj]

/-- Witness for the amended C6 theorem at `row = [1, 2]`, `size_out = 2`. -/
theorem C6_witness :
    (([1, 2] : List ℚ) ≠ [])
    ∧ ((c6setup [1, 2] 2).1.weights.size = (([1, 2] : List ℚ).length, 2)
      ∧ (gradT (c6setup [1, 2] 2).1.weights (c6setup [1, 2] 2).2.2).isSome = true
      ∧ (c6setup [1, 2] 2).1.bias.size = (1, 2)
      ∧ (gradT (c6setup [1, 2] 2).1.bias (c6setup [1, 2] 2).2.2).isSome = true
      ∧ (Linear.forward (c6setup [1, 2] 2).1 (c6setup [1, 2] 2).2.1
          (c6setup [1, 2] 2).2.2).map (fun r => (r.1.data, r.1.size))
        = Option.some ([List.replicate 2 (([1, 2] : List ℚ).sum + 1)], (1, 2))) :=
  ⟨by simp, C6_linear_batch_one [1, 2] 2 (by simp)⟩

end Autograd
